import Mathlib

/-
  Verification of the CodeWorm documentation daemon (Python sources under
  src/codeworm) against its natural-language specification.

  Shallow embedding conventions:
  * Python datetimes are modelled as integers counting seconds; the ISO-8601
    serialization used by the SQLite layer (datetime.isoformat and
    datetime.fromisoformat are mutually inverse and order-preserving) is
    modelled as the identity on that integer timeline.  A cooldown of d days
    is d * 86400 seconds.
  * SHA-256 (hashlib.sha256(...).hexdigest() in StateManager.hash_code) is an
    opaque cryptographic primitive; it is modelled as an arbitrary function
    hash_code : String -> String passed explicitly.  Every property proved
    here holds for every such function, in particular for SHA-256; the only
    fact the code relies on is that the hash is a deterministic function of
    the source text.
  * SQLite rows are modelled as a Lean structure, a table as a List of rows
    in insertion order.  SQL three-valued logic matters: a comparison
    `col = ?` with a NULL parameter matches nothing, while `col IS ?` is
    plain (NULL-aware) equality.  Both are modelled explicitly below.
-/

namespace CodeWorm

/-- Modelled from the spec: the DocType enum (documentation flavor) is
imported by src from codeworm.models but its declaration is not among the
provided sources.  The spec, section 3, fixes its values: function_doc,
security_review, performance_analysis, til, file_doc, class_doc, module_doc,
code_evolution, pattern_analysis, weekly_summary, monthly_summary. -/
inductive DocType
  | function_doc
  | security_review
  | performance_analysis
  | til
  | file_doc
  | class_doc
  | module_doc
  | code_evolution
  | pattern_analysis
  | weekly_summary
  | monthly_summary
deriving DecidableEq, Repr

/-- Language enum from src/codeworm/models.py. -/
inductive Language
  | python
  | typescript
  | tsx
  | javascript
  | go
  | rust
deriving DecidableEq, Repr

/-- CodeSnippet from src/codeworm/models.py.  file_path (a pathlib.Path) is
modelled by its string rendering str(file_path), which is what every SQL
query in state.py uses. -/
structure CodeSnippet where
  repo : String
  file_path : String
  function_name : Option String := none
  class_name : Option String := none
  language : Language
  source : String
  start_line : Int
  end_line : Int
  complexity : Rat := 0
  nesting_depth : Int := 0
  parameter_count : Int := 0
  interest_score : Rat := 0
deriving DecidableEq, Repr

/-- DocumentedSnippet from src/codeworm/models.py (lines 83-102).  Note that
the pydantic model has NO doc_type field: StateManager.record_documentation
passes doc_type to the constructor, but pydantic BaseModel ignores unknown
keyword arguments by default, so the constructed record does not carry it. -/
structure DocumentedSnippet where
  id : String
  source_repo : String
  source_file : String
  function_name : Option String := none
  class_name : Option String := none
  code_hash : String
  documented_at : Int
  snippet_path : String
  git_commit : Option String := none
deriving DecidableEq, Repr

/-- One row of the documented_snippets SQLite table (schema in state.py). -/
structure Row where
  id : String
  source_repo : String
  source_file : String
  function_name : Option String
  class_name : Option String
  code_hash : String
  documented_at : Int
  snippet_path : String
  git_commit : Option String
  doc_type : DocType
deriving DecidableEq, Repr

/-- SQL `col = ?` comparison on a nullable column with a nullable parameter:
under SQLite three-valued logic, any comparison involving NULL is not true,
so the predicate holds only when both sides are non-NULL and equal. -/
def sqlEq (a b : Option String) : Bool :=
  match a, b with
  | some x, some y => decide (x = y)
  | _, _ => false

/-- SQL `col IS ?` comparison: NULL-aware equality (NULL IS NULL is true). -/
def sqlIs (a b : Option String) : Bool :=
  decide (a = b)

/-- Maximum of a list of integers, none on the empty list.  Models reading
the documented_at column of the row selected by
ORDER BY documented_at DESC LIMIT 1 (ties all carry the same value). -/
def listMaxZ : List Int → Option Int
  | [] => none
  | a :: l =>
    match listMaxZ l with
    | none => some a
    | some m => some (max a m)

/-- The WHERE clause of the cooldown query in StateManager.should_document
(state.py lines 159-172): source_file = ? AND function_name = ?
AND class_name IS ? AND doc_type = ?.  function_name uses `=`, so a NULL
snippet function_name matches no row. -/
def entityQueryMatch (s : CodeSnippet) (f : DocType) (r : Row) : Bool :=
  decide (r.source_file = s.file_path) &&
  sqlEq r.function_name s.function_name &&
  sqlIs r.class_name s.class_name &&
  decide (r.doc_type = f)

/-- The WHERE clause of StateManager.get_existing_doc (state.py lines
110-121): source_file = ? AND function_name = ? AND class_name IS ?.
No doc_type condition.  function_name again uses SQL `=`. -/
def existingDocQueryMatch (s : CodeSnippet) (r : Row) : Bool :=
  decide (r.source_file = s.file_path) &&
  sqlEq r.function_name s.function_name &&
  sqlIs r.class_name s.class_name

/-- Newest documented_at among the rows matching the cooldown query. -/
def newestEntityDocAt (db : List Row) (s : CodeSnippet) (f : DocType) :
    Option Int :=
  listMaxZ ((db.filter (entityQueryMatch s f)).map (·.documented_at))

/-- StateManager.should_document (state.py lines 137-180), for a given hash
function, table contents, and current time now (seconds).  Returns false if
a row with the same (code_hash, doc_type) exists; otherwise false if the
newest row matching the entity query is younger than redocument_after_days;
otherwise true. -/
def should_document (hash_code : String → String) (db : List Row) (now : Int)
    (s : CodeSnippet) (f : DocType) (redocument_after_days : Int) : Bool :=
  let code_hash := hash_code s.source
  if db.any (fun r => decide (r.code_hash = code_hash) && decide (r.doc_type = f)) then
    false
  else
    match newestEntityDocAt db s f with
    | some last_doc =>
      if now - last_doc < redocument_after_days * 86400 then false else true
    | none => true

/-- StateManager.record_documentation (state.py lines 182-230): inserts a new
row (uuid and wall clock passed explicitly) and returns the DocumentedSnippet
built from the same data.  The doc_type keyword passed to the pydantic
constructor is dropped because the model declares no such field. -/
def record_documentation (hash_code : String → String) (db : List Row)
    (doc_id : String) (now : Int) (s : CodeSnippet) (snippet_path : String)
    (git_commit : Option String) (f : DocType) :
    List Row × DocumentedSnippet :=
  let row : Row :=
    { id := doc_id
      source_repo := s.repo
      source_file := s.file_path
      function_name := s.function_name
      class_name := s.class_name
      code_hash := hash_code s.source
      documented_at := now
      snippet_path := snippet_path
      git_commit := git_commit
      doc_type := f }
  (db ++ [row],
   { id := doc_id
     source_repo := s.repo
     source_file := s.file_path
     function_name := s.function_name
     class_name := s.class_name
     code_hash := hash_code s.source
     documented_at := now
     snippet_path := snippet_path
     git_commit := git_commit })

/-- The row returned by ORDER BY documented_at DESC LIMIT 1: a row whose
documented_at is maximal among the matching rows (SQLite leaves the choice
among ties unspecified; this model keeps the earliest inserted one). -/
def selectNewestRow (rows : List Row) : Option Row :=
  rows.foldl
    (fun acc r =>
      match acc with
      | none => some r
      | some b => if b.documented_at < r.documented_at then some r else some b)
    none

/-- StateManager.get_existing_doc (state.py lines 104-135): newest row
matching (source_file = ?, function_name = ?, class_name IS ?), rebuilt as a
DocumentedSnippet (again without any doc_type field). -/
def get_existing_doc (db : List Row) (s : CodeSnippet) :
    Option DocumentedSnippet :=
  match selectNewestRow (db.filter (existingDocQueryMatch s)) with
  | some row =>
    some
      { id := row.id
        source_repo := row.source_repo
        source_file := row.source_file
        function_name := row.function_name
        class_name := row.class_name
        code_hash := row.code_hash
        documented_at := row.documented_at
        snippet_path := row.snippet_path
        git_commit := row.git_commit }
  | none => none

/-- Bool test that pat occurs at the start of the character list l. -/
def seqPrefixOf : List Char → List Char → Bool
  | [], _ => true
  | _ :: _, [] => false
  | a :: as, b :: bs => a == b && seqPrefixOf as bs

/-- Bool test that pat occurs contiguously somewhere inside hay. -/
def seqContains : List Char → List Char → Bool
  | [], pat => pat.isEmpty
  | h :: hs, pat => seqPrefixOf pat (h :: hs) || seqContains hs pat

/-- Python `needle in hay` on str: contiguous substring test. -/
def strContainsSub (hay needle : String) : Bool :=
  seqContains hay.toList needle.toList

/-- Python str.lower(), per-character (adequate for the ASCII markers the
code searches for). -/
def strLower (s : String) : String :=
  String.mk (s.toList.map Char.toLower)

/-- Python str.startswith(p). -/
def strStartsWith (s p : String) : Bool :=
  seqPrefixOf p.toList s.toList

/-- Modelled from the spec: TelegramSettings is imported by the daemon from
codeworm.core.config but its declaration is not among the provided sources.
Only the fields the daemon reads are modelled: alert_after_failures (the
consecutive-failure threshold of spec section 4.7) and alert_on_push_failure
(read at daemon.py line 639). -/
structure TelegramSettings where
  alert_after_failures : Nat
  alert_on_push_failure : Bool
deriving DecidableEq

/-- CycleStats from src/codeworm/daemon.py (lines 43-122).  The Python set
repos_exhausted is modelled as a Finset of repo names; datetimes as
integer seconds. -/
structure CycleStats where
  total_cycles : Nat := 0
  successful_cycles : Nat := 0
  failed_cycles : Nat := 0
  skipped_cycles : Nat := 0
  consecutive_failures : Nat := 0
  consecutive_ollama_failures : Nat := 0
  consecutive_push_failures : Nat := 0
  last_success : Option Int := none
  last_failure : Option Int := none
  last_failure_reason : String := ""
  repos_exhausted : Finset String := ∅
deriving DecidableEq

/-- CycleStats.record_success (daemon.py lines 66-72): bumps the cycle and
success counters, resets the failure and ollama streaks, stamps
last_success, and clears repos_exhausted.  It does not touch
consecutive_push_failures. -/
def CycleStats.record_success (st : CycleStats) (now : Int) : CycleStats :=
  { st with
    total_cycles := st.total_cycles + 1
    successful_cycles := st.successful_cycles + 1
    consecutive_failures := 0
    consecutive_ollama_failures := 0
    last_success := some now
    repos_exhausted := ∅ }

/-- CycleStats.record_failure (daemon.py lines 74-79). -/
def CycleStats.record_failure (st : CycleStats) (now : Int) (reason : String) :
    CycleStats :=
  { st with
    total_cycles := st.total_cycles + 1
    failed_cycles := st.failed_cycles + 1
    consecutive_failures := st.consecutive_failures + 1
    last_failure := some now
    last_failure_reason := reason }

/-- CycleStats.record_skip (daemon.py lines 87-90). -/
def CycleStats.record_skip (st : CycleStats) (reason : String) : CycleStats :=
  { st with
    total_cycles := st.total_cycles + 1
    skipped_cycles := st.skipped_cycles + 1
    last_failure_reason := reason }

/-- CycleStats.record_repo_exhausted (daemon.py lines 92-93). -/
def CycleStats.record_repo_exhausted (st : CycleStats) (repo_name : String) :
    CycleStats :=
  { st with repos_exhausted := insert repo_name st.repos_exhausted }

/-- CycleStats.get_ollama_wait_seconds (daemon.py lines 100-103). -/
def get_ollama_wait_seconds (consecutive_ollama_failures : Nat) : Nat :=
  if consecutive_ollama_failures ≤ 1 then 10
  else min 300 (10 * 2 ^ (consecutive_ollama_failures - 1))

/-- The successive sleep durations performed by _wait_for_ollama (daemon.py
lines 201-241) over n consecutive failed health probes, entering the loop
with the given failure streak.  Each iteration first computes the wait from
the current streak (line 218) and only then records the failure (line 219),
so the i-th emitted wait uses the streak value failures + i. -/
def ollamaWaitSeq (failures : Nat) : Nat → List Nat
  | 0 => []
  | n + 1 => get_ollama_wait_seconds failures :: ollamaWaitSeq (failures + 1) n

/-- Alerts the daemon can send through the notifier in the paths modelled
here. -/
inductive AlertKind
  | secretScanViolation
  | pushErrorAlert
deriving DecidableEq, Repr

/-- The secret-scanning test of daemon.py line 640:
"GH013" in error_str or "secret" in error_str.lower(). -/
def isSecretScanError (err : String) : Bool :=
  strContainsSub err "GH013" || strContainsSub (strLower err) "secret"

/-- The push phase of CodeWormDaemon._document_target (daemon.py lines
630-649), entered after the local commit and record_documentation have
succeeded.  remote tells whether settings.devlog.remote is non-empty;
push is none when devlog.push() succeeds and some error message when it
raises.  Returns the updated stats, the alerts sent, and the return value
of _document_target (line 649: True on every push outcome). -/
def documentTargetPushPhase (telegram : TelegramSettings) (notifier : Bool)
    (remote : Bool) (stats : CycleStats) (push : Option String) :
    CycleStats × List AlertKind × Bool :=
  if remote then
    match push with
    | none => ({ stats with consecutive_push_failures := 0 }, [], true)
    | some err =>
      let stats1 :=
        { stats with
          consecutive_push_failures := stats.consecutive_push_failures + 1 }
      let alerts :=
        if notifier && telegram.alert_on_push_failure then
          if isSecretScanError err then [AlertKind.secretScanViolation]
          else if telegram.alert_after_failures ≤ stats1.consecutive_push_failures
            then [AlertKind.pushErrorAlert]
          else []
        else []
      (stats1, alerts, true)
  else (stats, [], true)

/-- The tail of _execute_documentation_cycle once a target was documented
(daemon.py lines 450-456): record_success when _document_target returned
True, record_failure otherwise. -/
def cycleAfterDocumentTarget (stats : CycleStats) (now : Int)
    (success : Bool) : CycleStats :=
  if success then stats.record_success now
  else stats.record_failure now "documentation_failed"

/-- RepoEntry from src/codeworm/core/config.py (lines 102-119). -/
structure RepoEntry where
  name : String
  path : String
  weight : Int := 5
  enabled : Bool := true
deriving DecidableEq

/-- The per-repo inner loop of _find_documentation_target (daemon.py lines
496-518): skip repos already in stats.repos_exhausted, otherwise return the
first target of the repo (as produced by the router with limit 30) that
should_document accepts.  No repo is ever recorded as exhausted here. -/
def searchRepos {τ : Type} (stats : CycleStats) (d : DocType)
    (find_targets : DocType → RepoEntry → List τ)
    (eligible : τ → DocType → Bool) : List RepoEntry → Option τ
  | [] => none
  | repo :: rest =>
    if repo.name ∈ stats.repos_exhausted then
      searchRepos stats d find_targets eligible rest
    else
      match (find_targets d repo).find? (fun t => eligible t d) with
      | some t => some t
      | none => searchRepos stats d find_targets eligible rest

/-- The doc-type loop of _find_documentation_target (daemon.py lines
484-520): iterate the sequence [selected_type, *all configured types]
(strings that fail DocType() are already dropped), skipping duplicates and
the weekly/monthly summary flavors, and search every enabled repo for each
remaining flavor. -/
def searchTypes {τ : Type} (stats : CycleStats)
    (enabled_repos : List RepoEntry)
    (find_targets : DocType → RepoEntry → List τ)
    (eligible : τ → DocType → Bool) :
    List DocType → List DocType → Option τ
  | _, [] => none
  | tried, d :: ds =>
    if d ∈ tried then
      searchTypes stats enabled_repos find_targets eligible tried ds
    else if d = DocType.weekly_summary ∨ d = DocType.monthly_summary then
      searchTypes stats enabled_repos find_targets eligible tried ds
    else
      match searchRepos stats d find_targets eligible enabled_repos with
      | some t => some t
      | none =>
        searchTypes stats enabled_repos find_targets eligible (d :: tried) ds

/-- CodeWormDaemon._find_documentation_target (daemon.py lines 470-520).
It only reads stats (the repos_exhausted set) and returns a target or none;
it performs no stats mutation. -/
def findDocumentationTarget {τ : Type} (stats : CycleStats)
    (enabled_repos : List RepoEntry) (type_seq : List DocType)
    (find_targets : DocType → RepoEntry → List τ)
    (eligible : τ → DocType → Bool) : Option τ :=
  searchTypes stats enabled_repos find_targets eligible [] type_seq

/-- The skip branch of _execute_documentation_cycle (daemon.py lines
423-439): when no target is found, record_skip("no_candidates") runs first
and stats.repos_exhausted is cleared afterwards (line 435).  The pair holds
the stats just before the clear and just after it. -/
def cycleSkipPhase (stats : CycleStats) : CycleStats × CycleStats :=
  let before_clear := stats.record_skip "no_candidates"
  (before_clear, { before_clear with repos_exhausted := ∅ })

/-- The legacy CodeWormDaemon._find_documentable_candidate (daemon.py lines
522-544): unlike _find_documentation_target, after scanning a repo without
finding an eligible candidate it records the repo as exhausted (line 537)
before moving on. -/
def findDocumentableCandidate {τ : Type} (stats : CycleStats)
    (find_candidates : RepoEntry → List τ) (eligible : τ → Bool) :
    List RepoEntry → Option τ × CycleStats
  | [] => (none, stats)
  | repo :: rest =>
    if repo.name ∈ stats.repos_exhausted then
      findDocumentableCandidate stats find_candidates eligible rest
    else
      match (find_candidates repo).find? eligible with
      | some c => (some c, stats)
      | none =>
        findDocumentableCandidate (stats.record_repo_exhausted repo.name)
          find_candidates eligible rest

/-- HOUR_WEIGHTS from src/codeworm/scheduler/scheduler.py (lines 24-49), as
the weight vector for hours 0..23 (floats rendered as exact rationals).
_build_hour_weights reads HOUR_WEIGHTS.get(h, 0.05) but every hour 0..23 is
present in the dict, so the 0.05 default is never used. -/
def HOUR_WEIGHTS_BASE : List Rat :=
  [2/100, 1/100, 1/200, 0, 0, 0, 1/100, 3/100, 8/100, 12/100, 15/100, 14/100,
   8/100, 10/100, 14/100, 15/100, 14/100, 10/100, 6/100, 5/100, 10/100,
   12/100, 10/100, 5/100]

/-- The prefer_hours pass of _build_hour_weights (scheduler.py lines
191-193): each configured hour in range has its weight multiplied by 1.5.
Hours are modelled as naturals; the source guard 0 <= h < 24 ignores any
out-of-range configured value. -/
def applyPreferHours (ws : List Rat) (prefer : List Nat) : List Rat :=
  prefer.foldl (fun w h => if h < 24 then w.set h (w.getD h 0 * (3/2)) else w) ws

/-- The avoid_hours pass of _build_hour_weights (scheduler.py lines
195-197): each configured hour in range has its weight set to 0. -/
def applyAvoidHours (ws : List Rat) (avoid : List Nat) : List Rat :=
  avoid.foldl (fun w h => if h < 24 then w.set h 0 else w) ws

/-- HumanLikeTrigger._build_hour_weights (scheduler.py lines 185-199). -/
def build_hour_weights (prefer avoid : List Nat) : List Rat :=
  applyAvoidHours (applyPreferHours HOUR_WEIGHTS_BASE prefer) avoid

/-- Inverse-CDF index selection: the index j whose cumulative-weight
interval contains v, walking the weights and subtracting.  For
0 <= v < sum ws this equals CPython bisect.bisect(cum_weights, v) used by
random.choices; for v >= sum ws it returns ws.length. -/
def pickIndex : List Rat → Rat → Nat
  | [], _ => 0
  | w :: rest, v => if v < w then 0 else pickIndex rest (v - w) + 1

/-- random.choices(range(24), weights, k=1)[0] with a uniform draw
x in [0,1): CPython computes population[bisect(cum_weights, x*total, 0,
n-1)], the hi = n-1 argument clamping the index. -/
def chooseHour (ws : List Rat) (x : Rat) : Nat :=
  min (pickIndex ws (x * ws.sum)) (ws.length - 1)

/-- One attempt of RNG output consumed by _generate_times: the choices draw
for the hour and the two randint(0, 59) draws (modelled modulo 60). -/
structure ScheduleDraw where
  hour_draw : Rat
  minute_draw : Nat
  second_draw : Nat

/-- HumanLikeTrigger._is_valid_time (scheduler.py lines 201-211): the
candidate is valid when no accepted timestamp lies strictly within
min_gap_minutes of it.  Times are seconds since local midnight. -/
def is_valid_time (min_gap_minutes : Nat) (candidate : Nat)
    (existing : List Nat) : Bool :=
  existing.all (fun t => decide (min_gap_minutes * 60 ≤ Nat.dist candidate t))

/-- The rejection-sampling loop of _generate_times (scheduler.py lines
163-181), with fuel counting the remaining attempts out of the initial
max_attempts = count * 10. -/
def generateTimesLoop (ws : List Rat) (min_gap count : Nat)
    (stream : Nat → ScheduleDraw) : Nat → Nat → List Nat → List Nat
  | 0, _, times => times
  | fuel + 1, attempt, times =>
    if times.length < count then
      let d := stream attempt
      let hour := chooseHour ws d.hour_draw
      let minute := d.minute_draw % 60
      let second := d.second_draw % 60
      let candidate := hour * 3600 + minute * 60 + second
      let times1 :=
        if is_valid_time min_gap candidate times then times ++ [candidate]
        else times
      generateTimesLoop ws min_gap count stream fuel (attempt + 1) times1
    else times

/-- HumanLikeTrigger._generate_times (scheduler.py lines 159-183): run the
rejection loop for count * 10 attempts and sort the result ascending. -/
def generate_times (prefer avoid : List Nat) (min_gap count : Nat)
    (stream : Nat → ScheduleDraw) : List Nat :=
  (generateTimesLoop (build_hour_weights prefer avoid) min_gap count stream
      (count * 10) 0 []).insertionSort (· ≤ ·)

/-- Python int() applied to a rational: truncation toward zero. -/
def pyInt (q : Rat) : Int :=
  if 0 ≤ q then ⌊q⌋ else ⌈q⌉

/-- Arithmetic (round-half-up) rounding, as named by claim C7. -/
def roundHalfUp (q : Rat) : Int :=
  ⌊q + 1/2⌋

/-- The commit-count computation of _generate_daily_schedule (scheduler.py
lines 143-148): N drawn by random.randint(min_commits, max_commits)
(modelled as min + draw mod (max - min + 1)); on weekends the count becomes
max(int(N * weekend_reduction), 3), int() truncating. -/
def generate_daily_commit_count (is_weekend : Bool)
    (min_commits max_commits : Nat) (weekend_reduction : Rat)
    (count_draw : Nat) : Int :=
  let n : Nat := min_commits + count_draw % (max_commits - min_commits + 1)
  if is_weekend then max (pyInt ((n : Rat) * weekend_reduction)) 3
  else (n : Int)

/-- HumanLikeTrigger._generate_daily_schedule (scheduler.py lines 139-157):
compute the day commit count, then generate the times. -/
def generate_daily_schedule (is_weekend : Bool)
    (min_commits max_commits : Nat) (weekend_reduction : Rat)
    (prefer avoid : List Nat) (min_gap : Nat) (count_draw : Nat)
    (stream : Nat → ScheduleDraw) : List Nat :=
  let count := generate_daily_commit_count is_weekend min_commits max_commits
    weekend_reduction count_draw
  generate_times prefer avoid min_gap count.toNat stream

/-- ComplexityMetrics from src/codeworm/analysis/complexity.py (lines
30-43). -/
structure ComplexityMetrics where
  name : String
  cyclomatic_complexity : Int
  nloc : Int
  token_count : Int
  parameter_count : Int
  start_line : Int
  end_line : Int
  max_nesting_depth : Int := 0
  fan_in : Int := 0
  fan_out : Int := 0
deriving DecidableEq

/-- GitStats from src/codeworm/analysis/scoring.py (lines 20-39).  The
source stores last_modified as an optional datetime and derives the
days_since_modified property from the wall clock (999 when last_modified is
None); the property value is what the scorer reads, so it is carried as a
field here. -/
structure GitStats where
  commit_count_30d : Int := 0
  commit_count_90d : Int := 0
  days_since_modified : Int := 999
  unique_authors : Int := 0
  is_new : Bool := false
deriving DecidableEq

/-- InterestScore from src/codeworm/analysis/scoring.py (lines 56-68). -/
structure InterestScore where
  total : Rat
  complexity_score : Rat
  length_score : Rat
  nesting_score : Rat
  parameter_score : Rat
  churn_score : Rat
  novelty_score : Rat
  pattern_bonus : Rat := 0
deriving DecidableEq

/-- InterestScorer._calculate_pattern_bonus (scoring.py lines 206-238).
A decorators argument of Python None behaves as the empty list under the
`if decorators:` truthiness test and is modelled as []. -/
def calculate_pattern_bonus (decorators : List String) (is_async : Bool)
    (source : String) : Rat :=
  let b_async : Rat := if is_async then 5 else 0
  let b_dec : Rat :=
    if decorators.isEmpty then 0
    else
      let decorator_text := strLower (String.intercalate " " decorators)
      (decorators.length : Rat) * 5
      + (if strContainsSub decorator_text "property" then 3 else 0)
      + (if strContainsSub decorator_text "classmethod"
            || strContainsSub decorator_text "staticmethod" then 3 else 0)
      + (if strContainsSub decorator_text "abstractmethod" then 8 else 0)
      + (if strContainsSub decorator_text "dataclass" then 7 else 0)
  let b_gen : Rat := if strContainsSub source "yield" then 8 else 0
  let b_ctx : Rat :=
    if strContainsSub source "__enter__" || strContainsSub source "__exit__"
    then 10 else 0
  b_async + b_dec + b_gen + b_ctx

/-- InterestScorer.score (scoring.py lines 146-204), with the float
arithmetic carried out exactly in the rationals. -/
def score (metrics : ComplexityMetrics) (git_stats : GitStats)
    (decorators : List String) (is_async : Bool) (source : String) :
    InterestScore :=
  let complexity_score := min ((metrics.cyclomatic_complexity : Rat) / 20) 1 * 100
  let length_score := min ((metrics.nloc : Rat) / 100) 1 * 100
  let nesting_score := min ((metrics.max_nesting_depth : Rat) / 5) 1 * 100
  let param_score := min ((metrics.parameter_count : Rat) / 7) 1 * 100
  let churn_score := min ((git_stats.commit_count_30d : Rat) / 5) 1 * 100
  let days_old := git_stats.days_since_modified
  let novelty_score := max 0 (((30 : Rat) - (days_old : Rat)) / 30) * 100
  let pattern_bonus := calculate_pattern_bonus decorators is_async source
  let weighted_total :=
    complexity_score * (35/100) + length_score * (15/100)
    + nesting_score * (15/100) + param_score * (10/100)
    + churn_score * (15/100) + novelty_score * (10/100) + pattern_bonus
  { total := min weighted_total 100
    complexity_score := complexity_score * (35/100)
    length_score := length_score * (15/100)
    nesting_score := nesting_score * (15/100)
    parameter_score := param_score * (10/100)
    churn_score := churn_score * (15/100)
    novelty_score := novelty_score * (10/100)
    pattern_bonus := pattern_bonus }

/-- ParsedFunction from src/codeworm/analysis/parser.py (lines 26-38). -/
structure ParsedFunction where
  name : String
  start_line : Int
  end_line : Int
  source : String
  class_name : Option String := none
  decorators : List String := []
  parameters : List String := []
  is_async : Bool := false
  docstring : Option String := none
deriving DecidableEq

/-- The AnalyzerSettings fields read by _should_skip_function
(src/codeworm/core/config.py lines 72-78). -/
structure AnalyzerSettings where
  min_complexity : Int := 3
  max_lines : Int := 150
  min_lines : Int := 15
deriving DecidableEq

/-- The skip_names set of CodeAnalyzer._should_skip_function (analyzer.py
line 177). -/
def skipNames : List String :=
  ["__init__", "__str__", "__repr__", "main", "setUp", "tearDown"]

/-- The test func.name.startswith("_") and not func.name.startswith("__")
of analyzer.py line 174. -/
def singleUnderscoreName (name : String) : Bool :=
  strStartsWith name "_" && !(strStartsWith name "__")

/-- CodeAnalyzer._should_skip_function (analyzer.py lines 170-188).
rand_draw models the random.random() call in the single-leading-underscore
branch; note that branch returns immediately, bypassing both the skip-name
and the line-count checks. -/
def should_skip_function (settings : Option AnalyzerSettings)
    (rand_draw : Rat) (func : ParsedFunction) : Bool :=
  if singleUnderscoreName func.name then
    decide ((3 : Rat)/10 < rand_draw)
  else if func.name ∈ skipNames then
    true
  else
    let line_count := func.end_line - func.start_line + 1
    match settings with
    | some st =>
      if line_count < st.min_lines then true
      else if st.max_lines < line_count then true
      else false
    | none => false

/-! Helper lemmas about the list maximum. -/

lemma listMaxZ_eq_none {l : List Int} (h : listMaxZ l = none) : l = [] := by
  cases l with
  | nil => rfl
  | cons a t =>
    simp only [listMaxZ] at h
    cases ht : listMaxZ t <;> rw [ht] at h <;> simp at h

lemma listMaxZ_spec {l : List Int} {m : Int} (h : listMaxZ l = some m) :
    m ∈ l ∧ ∀ x ∈ l, x ≤ m := by
  induction l generalizing m with
  | nil => simp [listMaxZ] at h
  | cons a t ih =>
    simp only [listMaxZ] at h
    cases ht : listMaxZ t with
    | none =>
      rw [ht] at h
      obtain rfl : a = m := by simpa using h
      have : t = [] := listMaxZ_eq_none ht
      subst this
      simp
    | some mt =>
      rw [ht] at h
      obtain rfl : max a mt = m := by simpa using h
      obtain ⟨hmem, hbound⟩ := ih ht
      constructor
      · rcases max_choice a mt with hc | hc <;> rw [hc]
        · exact List.mem_cons_self a t
        · exact List.mem_cons_of_mem a hmem
      · intro x hx
        rcases List.mem_cons.mp hx with rfl | hxt
        · exact le_max_left _ _
        · exact le_trans (hbound x hxt) (le_max_right _ _)

lemma listMaxZ_of_ne_nil {l : List Int} (h : l ≠ []) :
    ∃ m, listMaxZ l = some m := by
  cases hl : listMaxZ l with
  | none => exact absurd (listMaxZ_eq_none hl) h
  | some m => exact ⟨m, rfl⟩

/-- The entity identity of claim C1 (and of the spec, section 3): same
source file, function name, class name, and doc type, all compared as
plain (NULL-aware) equality. -/
def entityIdentityMatch (s : CodeSnippet) (f : DocType) (r : Row) : Prop :=
  r.source_file = s.file_path ∧ r.function_name = s.function_name ∧
  r.class_name = s.class_name ∧ r.doc_type = f

instance (s : CodeSnippet) (f : DocType) (r : Row) :
    Decidable (entityIdentityMatch s f r) := by
  unfold entityIdentityMatch
  infer_instance

/-- The blocking condition asserted by claim C1: an exact
(code_hash, doc_type) duplicate exists, or the newest row for the entity
identity is younger than the cooldown. -/
def claimBlocked (hash_code : String → String) (db : List Row) (now : Int)
    (s : CodeSnippet) (f : DocType) (d : Int) : Prop :=
  (∃ r ∈ db, r.code_hash = hash_code s.source ∧ r.doc_type = f) ∨
  (∃ r ∈ db, entityIdentityMatch s f r ∧
    (∀ q ∈ db, entityIdentityMatch s f q → q.documented_at ≤ r.documented_at) ∧
    now - r.documented_at < d * 86400)

instance (hash_code : String → String) (db : List Row) (now : Int)
    (s : CodeSnippet) (f : DocType) (d : Int) :
    Decidable (claimBlocked hash_code db now s f d) := by
  unfold claimBlocked
  infer_instance

lemma entityQueryMatch_iff {s : CodeSnippet} {f : DocType} {v : String}
    (hfn : s.function_name = some v) (r : Row) :
    entityQueryMatch s f r = true ↔ entityIdentityMatch s f r := by
  rcases hr : r.function_name with _ | x <;>
    simp [entityQueryMatch, entityIdentityMatch, sqlEq, sqlIs, hfn, hr,
      and_assoc]

lemma exactDupAny_iff (hash_code : String → String) (db : List Row)
    (s : CodeSnippet) (f : DocType) :
    (db.any fun r =>
        decide (r.code_hash = hash_code s.source) && decide (r.doc_type = f))
      = true ↔
    ∃ r ∈ db, r.code_hash = hash_code s.source ∧ r.doc_type = f := by
  simp [List.any_eq_true]

lemma newestEntityDocAt_eq_some {s : CodeSnippet} {f : DocType} {v : String}
    (hfn : s.function_name = some v) {db : List Row} {t : Int}
    (h : newestEntityDocAt db s f = some t) :
    (∃ r ∈ db, entityIdentityMatch s f r ∧ r.documented_at = t) ∧
    ∀ q ∈ db, entityIdentityMatch s f q → q.documented_at ≤ t := by
  obtain ⟨hmem, hbound⟩ := listMaxZ_spec h
  constructor
  · obtain ⟨r, hr, hrt⟩ := List.mem_map.mp hmem
    obtain ⟨hrdb, hrq⟩ := List.mem_filter.mp hr
    exact ⟨r, hrdb, (entityQueryMatch_iff hfn r).mp hrq, hrt⟩
  · intro q hq hqid
    exact hbound q.documented_at
      (List.mem_map.mpr ⟨q, List.mem_filter.mpr
        ⟨hq, (entityQueryMatch_iff hfn q).mpr hqid⟩, rfl⟩)

lemma newestEntityDocAt_eq_none {s : CodeSnippet} {f : DocType} {v : String}
    (hfn : s.function_name = some v) {db : List Row}
    (h : newestEntityDocAt db s f = none) :
    ∀ r ∈ db, ¬ entityIdentityMatch s f r := by
  intro r hr hid
  have hfilter : (db.filter (entityQueryMatch s f)).map (·.documented_at) = [] :=
    listMaxZ_eq_none h
  have : r ∈ db.filter (entityQueryMatch s f) :=
    List.mem_filter.mpr ⟨hr, (entityQueryMatch_iff hfn r).mpr hid⟩
  have : r.documented_at ∈
      (db.filter (entityQueryMatch s f)).map (·.documented_at) :=
    List.mem_map.mpr ⟨r, this, rfl⟩
  simp [hfilter] at this

/-- C1: For every snippet s, flavor f, and cooldown d, should_document
returns false iff an exact (code_hash, doc_type) duplicate of s.source
exists or the newest row for the entity identity
(file_path, function_name, class_name, f) is younger than d days; and
immediately after record_documentation of s under f, should_document is
false for every cooldown.  This is the claim as stated, which fails when
s.function_name is NULL (SQL `function_name = ?` matches nothing then);
the amended claim restricts to snippets whose function_name is set. -/
theorem C1_should_document_characterization (hash_code : String → String)
    (db : List Row) (now : Int) (s : CodeSnippet) (f : DocType) (d : Int)
    (v : String) (hfn : s.function_name = some v) :
    (should_document hash_code db now s f d = false ↔
      claimBlocked hash_code db now s f d) ∧
    (∀ (doc_id : String) (now2 now3 : Int) (snippet_path : String)
        (git_commit : Option String) (d2 : Int),
      should_document hash_code
        (record_documentation hash_code db doc_id now2 s snippet_path
          git_commit f).1 now3 s f d2 = false) := by
  constructor
  · by_cases hA : (db.any fun r =>
        decide (r.code_hash = hash_code s.source) && decide (r.doc_type = f))
        = true
    · simp only [should_document, hA, if_true]
      simp only [eq_self_iff_true, true_iff]
      exact Or.inl ((exactDupAny_iff hash_code db s f).mp hA)
    · have hnodup : ¬ ∃ r ∈ db, r.code_hash = hash_code s.source ∧
          r.doc_type = f :=
        fun hc => hA ((exactDupAny_iff hash_code db s f).mpr hc)
      rw [Bool.not_eq_true] at hA
      simp only [should_document, hA, Bool.false_eq_true, if_false]
      cases hN : newestEntityDocAt db s f with
      | none =>
        simp only [claimBlocked]
        constructor
        · intro h
          simp at h
        · rintro (hc | ⟨r, hr, hid, _, _⟩)
          · exact absurd hc hnodup
          · exact absurd hid (newestEntityDocAt_eq_none hfn hN r hr)
      | some t =>
        obtain ⟨⟨r0, hr0db, hr0id, hr0t⟩, hub⟩ :=
          newestEntityDocAt_eq_some hfn hN
        simp only [claimBlocked]
        constructor
        · intro h
          have htime : now - t < d * 86400 := by
            by_contra hge
            simp [hge] at h
          exact Or.inr ⟨r0, hr0db, hr0id, fun q hq hqid => by
            rw [hr0t]; exact hub q hq hqid, by rw [hr0t]; exact htime⟩
        · rintro (hc | ⟨r, hrdb, hid, hmax, htime⟩)
          · exact absurd hc hnodup
          · have hle : r.documented_at ≤ t := hub r hrdb hid
            have hge : t ≤ r.documented_at := by
              rw [← hr0t]
              exact hmax r0 hr0db hr0id
            have ht : r.documented_at = t := le_antisymm hle hge
            rw [ht] at htime
            simp [htime]
  · intro doc_id now2 now3 snippet_path git_commit d2
    simp only [record_documentation, should_document]
    rw [if_pos]
    rw [List.any_append]
    simp

/-- C10: the exact-duplicate check is keyed only by (code_hash, doc_type):
after recording s1 under flavor f, any snippet s2 with the same source text
is blocked under f for every cooldown, regardless of its repo, file, or
function/class names. -/
theorem C10_exact_dup_ignores_identity (hash_code : String → String)
    (db : List Row) (s1 s2 : CodeSnippet) (f : DocType) (doc_id : String)
    (now now2 d : Int) (snippet_path : String) (git_commit : Option String)
    (hsrc : s2.source = s1.source) :
    should_document hash_code
      (record_documentation hash_code db doc_id now s1 snippet_path
        git_commit f).1 now2 s2 f d = false := by
  simp only [record_documentation, should_document]
  rw [if_pos]
  rw [List.any_append]
  simp [hsrc]

/-- C6 (amended): recording a snippet whose function_name is set into a
fresh store and reloading through get_existing_doc returns exactly the
record that record_documentation produced.  (The DocumentedSnippet pydantic
model has no doc_type field, so record equality ranges over id, repo, file,
names, hash, timestamp, snippet path, and git commit.) -/
theorem C6_record_roundtrip (hash_code : String → String) (s : CodeSnippet)
    (doc_id : String) (now : Int) (snippet_path : String)
    (git_commit : Option String) (f : DocType) (v : String)
    (hfn : s.function_name = some v) :
    get_existing_doc
        (record_documentation hash_code [] doc_id now s snippet_path
          git_commit f).1 s
      = some (record_documentation hash_code [] doc_id now s snippet_path
          git_commit f).2 := by
  simp [record_documentation, get_existing_doc, existingDocQueryMatch,
    selectNewestRow, sqlEq, sqlIs, hfn]

/-! Concrete instances used by counterexamples and witnesses. -/

/-- A concrete stand-in for the hash function in closed statements. -/
def cexHash : String → String := fun _ => "HASH0"

/-- A snippet with no function name (e.g. a class- or file-level target;
CodeSnippet.function_name is optional in models.py). -/
def cexSnippetNoFn : CodeSnippet :=
  { repo := "r", file_path := "a.py", function_name := none,
    class_name := none, language := Language.python, source := "src2",
    start_line := 1, end_line := 2 }

/-- A stored row for the same entity identity (file a.py, NULL function
name, NULL class name, flavor function_doc) with a different code hash. -/
def cexRowNoFn : Row :=
  { id := "i1", source_repo := "r", source_file := "a.py",
    function_name := none, class_name := none, code_hash := "OTHER",
    documented_at := 0, snippet_path := "p", git_commit := none,
    doc_type := DocType.function_doc }

/-- A snippet with a function name, used by witnesses. -/
def witSnip : CodeSnippet :=
  { repo := "r", file_path := "b.py", function_name := some "g",
    class_name := none, language := Language.python, source := "srcW",
    start_line := 1, end_line := 3 }

/-- C1 counterexample: with a NULL function_name, the newest row for the
entity identity is 10 seconds old (younger than the 1-day cooldown), so the
claim asserts should_document is false, but the SQL `function_name = ?`
comparison matches nothing and the code returns true. -/
theorem C1_counterexample :
    ¬ (should_document cexHash [cexRowNoFn] 10 cexSnippetNoFn
          DocType.function_doc 1 = false ↔
        claimBlocked cexHash [cexRowNoFn] 10 cexSnippetNoFn
          DocType.function_doc 1) := by
  decide

/-- Witness instantiating C1_should_document_characterization. -/
theorem C1_witness :
    (should_document cexHash [] 5 witSnip DocType.til 90 = false ↔
      claimBlocked cexHash [] 5 witSnip DocType.til 90) ∧
    (∀ (doc_id : String) (now2 now3 : Int) (snippet_path : String)
        (git_commit : Option String) (d2 : Int),
      should_document cexHash
        (record_documentation cexHash [] doc_id now2 witSnip snippet_path
          git_commit DocType.til).1 now3 witSnip DocType.til d2 = false) :=
  C1_should_document_characterization cexHash [] 5 witSnip DocType.til 90
    "g" rfl

/-- C6 counterexample: for a snippet with NULL function_name, the record
written by record_documentation cannot be read back: get_existing_doc
returns None because its `function_name = ?` clause matches no row. -/
theorem C6_counterexample :
    get_existing_doc
        (record_documentation cexHash [] "id0" 5 cexSnippetNoFn "sp"
          (some "c") DocType.til).1 cexSnippetNoFn
      ≠ some (record_documentation cexHash [] "id0" 5 cexSnippetNoFn "sp"
          (some "c") DocType.til).2 := by
  decide

/-- Witness instantiating C6_record_roundtrip. -/
theorem C6_witness :
    get_existing_doc
        (record_documentation cexHash [] "id1" 7 witSnip "sp" none
          DocType.function_doc).1 witSnip
      = some (record_documentation cexHash [] "id1" 7 witSnip "sp" none
          DocType.function_doc).2 :=
  C6_record_roundtrip cexHash witSnip "id1" 7 "sp" none DocType.function_doc
    "g" rfl

/-- A snippet sharing witSnip's source text but nothing else. -/
def witSnipOther : CodeSnippet :=
  { repo := "other_repo", file_path := "deep/other.py",
    function_name := some "different", class_name := some "Cls",
    language := Language.go, source := "srcW", start_line := 9,
    end_line := 20 }

/-- Witness instantiating C10_exact_dup_ignores_identity. -/
theorem C10_witness :
    should_document cexHash
      (record_documentation cexHash [] "id2" 3 witSnip "p" none
        DocType.security_review).1 9 witSnipOther DocType.security_review 90
      = false :=
  C10_exact_dup_ignores_identity cexHash [] witSnip witSnipOther
    DocType.security_review "id2" 3 9 90 "p" none rfl

/-! C3: the Ollama-wait backoff sequence. -/

lemma ollamaWaitSeq_getElem? (f n i : Nat) (h : i < n) :
    (ollamaWaitSeq f n)[i]? = some (get_ollama_wait_seconds (f + i)) := by
  induction n generalizing f i with
  | zero => omega
  | succ n ih =>
    cases i with
    | zero => simp [ollamaWaitSeq]
    | succ i =>
      simp only [ollamaWaitSeq, List.getElem?_cons_succ]
      rw [ih (f + 1) i (by omega)]
      have : f + 1 + i = f + (i + 1) := by omega
      rw [this]

/-- C3 counterexample: during a continuous outage starting from a zero
failure streak, the second wait lasts 10 seconds, not the
min(300, 10 * 2^(2-1)) = 20 seconds asserted by the claim, because
_wait_for_ollama computes the wait before recording the failure. -/
theorem C3_counterexample :
    (ollamaWaitSeq 0 2)[1]? ≠ some (min 300 (10 * 2 ^ (2 - 1))) := by
  decide

/-- C3 (amended): the k-th consecutive wait of the Ollama-wait protocol
lasts min(300, 10 * 2^(k-2)) seconds (natural subtraction), i.e. the
sequence is 10, 10, 20, 40, 80, 160, 300, 300, ... -/
theorem C3_wait_sequence (k n : Nat) (h1 : 1 ≤ k) (h2 : k ≤ n) :
    (ollamaWaitSeq 0 n)[k - 1]? = some (min 300 (10 * 2 ^ (k - 2))) := by
  rw [ollamaWaitSeq_getElem? 0 n (k - 1) (by omega)]
  congr 1
  simp only [Nat.zero_add]
  unfold get_ollama_wait_seconds
  by_cases hk : k ≤ 2
  · rw [if_pos (by omega : k - 1 ≤ 1)]
    have h0 : k - 2 = 0 := by omega
    rw [h0]
    norm_num
  · rw [if_neg (by omega : ¬ k - 1 ≤ 1)]
    have h1 : k - 1 - 1 = k - 2 := by omega
    rw [h1]

/-- Witness instantiating C3_wait_sequence at k = 4 of 7 waits. -/
theorem C3_witness :
    (ollamaWaitSeq 0 7)[4 - 1]? = some (min 300 (10 * 2 ^ (4 - 2))) :=
  C3_wait_sequence 4 7 (by decide) (by decide)

/-! C4: repos_exhausted bookkeeping during a documentation cycle. -/

/-- A single enabled repository used in closed statements. -/
def cexRepo : RepoEntry :=
  { name := "r1", path := "/tmp/r1" }

/-- C4 counterexample: one enabled repo whose only candidate target is
blocked by should_document (eligible is constantly false).  The search
returns none and the cycle records a skip, but _find_documentation_target
never calls record_repo_exhausted, so repos_exhausted does not contain the
repo name at the moment it is cleared — contradicting the claim. -/
theorem C4_counterexample :
    findDocumentationTarget (τ := Unit) {} [cexRepo] [DocType.function_doc]
        (fun _ _ => [()]) (fun _ _ => false) = none ∧
    (cycleSkipPhase {}).1.skipped_cycles = 1 ∧
    "r1" ∉ (cycleSkipPhase {}).1.repos_exhausted := by
  refine ⟨by decide, by decide, ?_⟩
  simp [cycleSkipPhase, CycleStats.record_skip]

/-- C4 (amended): the documentation-cycle target search adds nothing to
repos_exhausted: after a cycle with no eligible target, the skip is
recorded, the pre-clear repos_exhausted value is exactly the pre-cycle
value, and the set is then cleared.  Repo exhaustion is recorded only by
the legacy _find_documentable_candidate, whose behaviour on a fruitless
repo is stated in the last conjunct. -/
theorem C4_cycle_skip {τ : Type} (stats : CycleStats)
    (enabled_repos : List RepoEntry) (type_seq : List DocType)
    (find_targets : DocType → RepoEntry → List τ)
    (eligible : τ → DocType → Bool)
    (_hnone : findDocumentationTarget stats enabled_repos type_seq
      find_targets eligible = none) :
    (cycleSkipPhase stats).1.skipped_cycles = stats.skipped_cycles + 1 ∧
    (cycleSkipPhase stats).1.total_cycles = stats.total_cycles + 1 ∧
    (cycleSkipPhase stats).1.repos_exhausted = stats.repos_exhausted ∧
    (cycleSkipPhase stats).2.repos_exhausted = ∅ ∧
    (∀ (find_candidates : RepoEntry → List τ) (elig : τ → Bool)
        (repo : RepoEntry),
      repo.name ∉ stats.repos_exhausted →
      (find_candidates repo).find? elig = none →
      (findDocumentableCandidate stats find_candidates elig
          [repo]).2.repos_exhausted
        = insert repo.name stats.repos_exhausted) := by
  refine ⟨rfl, rfl, rfl, rfl, ?_⟩
  intro find_candidates elig repo hmem hfind
  simp [findDocumentableCandidate, hmem, hfind,
    CycleStats.record_repo_exhausted]

/-- Witness instantiating C4_cycle_skip on the counterexample scenario. -/
theorem C4_witness :
    (cycleSkipPhase {}).1.skipped_cycles = ({} : CycleStats).skipped_cycles + 1 ∧
    (cycleSkipPhase {}).1.total_cycles = ({} : CycleStats).total_cycles + 1 ∧
    (cycleSkipPhase {}).1.repos_exhausted = ({} : CycleStats).repos_exhausted ∧
    (cycleSkipPhase {}).2.repos_exhausted = ∅ ∧
    (∀ (find_candidates : RepoEntry → List Unit) (elig : Unit → Bool)
        (repo : RepoEntry),
      repo.name ∉ ({} : CycleStats).repos_exhausted →
      (find_candidates repo).find? elig = none →
      (findDocumentableCandidate {} find_candidates elig
          [repo]).2.repos_exhausted
        = insert repo.name ({} : CycleStats).repos_exhausted) :=
  C4_cycle_skip {} [cexRepo] [DocType.function_doc] (fun _ _ => [()])
    (fun _ _ => false) (by decide)

/-! C5: push-failure policy. -/

/-- C5 counterexample: the push error contains GH013 and a notifier is
configured, yet no alert is sent because alert_on_push_failure is disabled
(daemon.py line 639 gates every push alert on that flag, which the claim
omits). -/
theorem C5_counterexample :
    isSecretScanError "GH013" = true ∧
    (documentTargetPushPhase ⟨3, false⟩ true true {} (some "GH013")).2.1
      = [] := by
  constructor <;> decide

/-- C5 (amended): on a push failure after a successful local commit, the
cycle still succeeds (_document_target returns True and record_success
runs), consecutive_push_failures increments by one and survives
record_success, and — when a notifier is configured AND
alert_on_push_failure is enabled — a GH013/secret error alerts immediately
while any other error alerts exactly when the streak reaches
alert_after_failures; with the flag disabled or no notifier, no alert is
sent. -/
theorem C5_push_failure_policy (telegram : TelegramSettings)
    (notifier : Bool) (stats : CycleStats) (err : String) (now : Int) :
    (documentTargetPushPhase telegram notifier true stats (some err)).2.2
      = true ∧
    (documentTargetPushPhase telegram notifier true stats
        (some err)).1.consecutive_push_failures
      = stats.consecutive_push_failures + 1 ∧
    (cycleAfterDocumentTarget
        (documentTargetPushPhase telegram notifier true stats (some err)).1
        now
        (documentTargetPushPhase telegram notifier true stats
          (some err)).2.2).successful_cycles
      = stats.successful_cycles + 1 ∧
    (cycleAfterDocumentTarget
        (documentTargetPushPhase telegram notifier true stats (some err)).1
        now
        (documentTargetPushPhase telegram notifier true stats
          (some err)).2.2).consecutive_push_failures
      = stats.consecutive_push_failures + 1 ∧
    (notifier = true → telegram.alert_on_push_failure = true →
      (isSecretScanError err = true →
        (documentTargetPushPhase telegram notifier true stats
          (some err)).2.1 = [AlertKind.secretScanViolation]) ∧
      (isSecretScanError err = false →
        ((documentTargetPushPhase telegram notifier true stats
            (some err)).2.1 = [AlertKind.pushErrorAlert] ↔
          telegram.alert_after_failures
            ≤ stats.consecutive_push_failures + 1))) ∧
    ((notifier = false ∨ telegram.alert_on_push_failure = false) →
      (documentTargetPushPhase telegram notifier true stats
        (some err)).2.1 = []) := by
  refine ⟨rfl, rfl, ?_, ?_, ?_, ?_⟩
  · simp [documentTargetPushPhase, cycleAfterDocumentTarget,
      CycleStats.record_success]
  · simp [documentTargetPushPhase, cycleAfterDocumentTarget,
      CycleStats.record_success]
  · intro hn ha
    constructor
    · intro hsec
      simp [documentTargetPushPhase, hn, ha, hsec]
    · intro hsec
      by_cases hthr : telegram.alert_after_failures
          ≤ stats.consecutive_push_failures + 1
      · simp [documentTargetPushPhase, hn, ha, hsec, hthr]
      · simp [documentTargetPushPhase, hn, ha, hsec, hthr]
  · rintro (hn | ha)
    · simp [documentTargetPushPhase, hn]
    · simp [documentTargetPushPhase, ha]

/-- Witness instantiating C5_push_failure_policy on a concrete
configuration. -/
theorem C5_witness :
    (documentTargetPushPhase ⟨2, true⟩ true true {} (some "boom")).2.2
      = true ∧
    (documentTargetPushPhase ⟨2, true⟩ true true {}
        (some "boom")).1.consecutive_push_failures
      = ({} : CycleStats).consecutive_push_failures + 1 ∧
    (cycleAfterDocumentTarget
        (documentTargetPushPhase ⟨2, true⟩ true true {} (some "boom")).1
        0
        (documentTargetPushPhase ⟨2, true⟩ true true {}
          (some "boom")).2.2).successful_cycles
      = ({} : CycleStats).successful_cycles + 1 ∧
    (cycleAfterDocumentTarget
        (documentTargetPushPhase ⟨2, true⟩ true true {} (some "boom")).1
        0
        (documentTargetPushPhase ⟨2, true⟩ true true {}
          (some "boom")).2.2).consecutive_push_failures
      = ({} : CycleStats).consecutive_push_failures + 1 ∧
    (true = true → (⟨2, true⟩ : TelegramSettings).alert_on_push_failure = true →
      (isSecretScanError "boom" = true →
        (documentTargetPushPhase ⟨2, true⟩ true true {}
          (some "boom")).2.1 = [AlertKind.secretScanViolation]) ∧
      (isSecretScanError "boom" = false →
        ((documentTargetPushPhase ⟨2, true⟩ true true {}
            (some "boom")).2.1 = [AlertKind.pushErrorAlert] ↔
          (⟨2, true⟩ : TelegramSettings).alert_after_failures
            ≤ ({} : CycleStats).consecutive_push_failures + 1))) ∧
    ((true = false ∨ (⟨2, true⟩ : TelegramSettings).alert_on_push_failure = false) →
      (documentTargetPushPhase ⟨2, true⟩ true true {}
        (some "boom")).2.1 = []) :=
  C5_push_failure_policy ⟨2, true⟩ true {} "boom" 0

/-! C7: weekend commit count. -/

/-- C7 counterexample: with min = max = 7 and weekend_reduction = 1/2 the
drawn N is 7 and N * 1/2 = 3.5; int() truncates to 3, so the code aims for
max(3, 3) = 3 commits, while the claimed arithmetic rounding gives
max(3, 4) = 4. -/
theorem C7_counterexample :
    generate_daily_commit_count true 7 7 (1/2) 0
      ≠ max (roundHalfUp ((7 : Rat) * (1/2))) 3 := by
  have hL : generate_daily_commit_count true 7 7 (1/2) 0 = 3 := by
    simp only [generate_daily_commit_count, pyInt]
    norm_num
  have hR : roundHalfUp ((7 : Rat) * (1/2)) = 4 := by
    rw [roundHalfUp, Int.floor_eq_iff]
    norm_num
  rw [hL, hR]
  decide

/-- C7 (amended): on a weekend the trigger aims for
max(3, floor(N * weekend_reduction)) commits — truncation toward zero, which
for the nonnegative product is the floor, not arithmetic rounding — where N
is drawn from [min_commits, max_commits]. -/
theorem C7_weekend_count (minC maxC : Nat) (wf : Rat) (draw : Nat)
    (hle : minC ≤ maxC) (hwf : 0 ≤ wf) :
    minC ≤ minC + draw % (maxC - minC + 1) ∧
    minC + draw % (maxC - minC + 1) ≤ maxC ∧
    generate_daily_commit_count true minC maxC wf draw
      = max ⌊((minC + draw % (maxC - minC + 1) : Nat) : Rat) * wf⌋ 3 := by
  refine ⟨Nat.le_add_right _ _, ?_, ?_⟩
  · have := Nat.mod_lt draw (y := maxC - minC + 1) (by omega)
    omega
  · simp only [generate_daily_commit_count, pyInt, if_true]
    rw [if_pos]
    exact mul_nonneg (by positivity) hwf

/-- Witness instantiating C7_weekend_count. -/
theorem C7_witness :
    12 ≤ 12 + 2 % (18 - 12 + 1) ∧
    12 + 2 % (18 - 12 + 1) ≤ 18 ∧
    generate_daily_commit_count true 12 18 (7/10) 2
      = max ⌊((12 + 2 % (18 - 12 + 1) : Nat) : Rat) * (7/10)⌋ 3 :=
  C7_weekend_count 12 18 (7/10) 2 (by decide) (by norm_num)

/-! C8: interest score bounds. -/

lemma clampScore_nonneg {x c : Rat} (hx : 0 ≤ x) (hc : 0 < c) :
    0 ≤ min (x / c) 1 * 100 :=
  mul_nonneg (le_min (div_nonneg hx hc.le) zero_le_one) (by norm_num)

lemma clampScore_le {x c : Rat} : min (x / c) 1 * 100 ≤ 100 := by
  have h : min (x / c) 1 * 100 ≤ 1 * 100 :=
    mul_le_mul_of_nonneg_right (min_le_right (x / c) 1) (by norm_num)
  linarith

lemma calculate_pattern_bonus_nonneg (decorators : List String)
    (is_async : Bool) (source : String) :
    0 ≤ calculate_pattern_bonus decorators is_async source := by
  simp only [calculate_pattern_bonus]
  refine add_nonneg (add_nonneg (add_nonneg ?_ ?_) ?_) ?_
  · split <;> norm_num
  · split
    · norm_num
    · refine add_nonneg (add_nonneg (add_nonneg (add_nonneg
        (by positivity) ?_) ?_) ?_) ?_ <;> (split <;> norm_num)
  · split <;> norm_num
  · split <;> norm_num

lemma score_complexity_eq (m : ComplexityMetrics) (g : GitStats)
    (d : List String) (a : Bool) (s : String) :
    (score m g d a s).complexity_score
      = min ((m.cyclomatic_complexity : Rat) / 20) 1 * 100 * (35/100) := rfl

lemma score_length_eq (m : ComplexityMetrics) (g : GitStats)
    (d : List String) (a : Bool) (s : String) :
    (score m g d a s).length_score
      = min ((m.nloc : Rat) / 100) 1 * 100 * (15/100) := rfl

lemma score_nesting_eq (m : ComplexityMetrics) (g : GitStats)
    (d : List String) (a : Bool) (s : String) :
    (score m g d a s).nesting_score
      = min ((m.max_nesting_depth : Rat) / 5) 1 * 100 * (15/100) := rfl

lemma score_parameter_eq (m : ComplexityMetrics) (g : GitStats)
    (d : List String) (a : Bool) (s : String) :
    (score m g d a s).parameter_score
      = min ((m.parameter_count : Rat) / 7) 1 * 100 * (10/100) := rfl

lemma score_churn_eq (m : ComplexityMetrics) (g : GitStats)
    (d : List String) (a : Bool) (s : String) :
    (score m g d a s).churn_score
      = min ((g.commit_count_30d : Rat) / 5) 1 * 100 * (15/100) := rfl

lemma score_novelty_eq (m : ComplexityMetrics) (g : GitStats)
    (d : List String) (a : Bool) (s : String) :
    (score m g d a s).novelty_score
      = max 0 (((30 : Rat) - (g.days_since_modified : Rat)) / 30) * 100
          * (10/100) := rfl

lemma score_total_eq (m : ComplexityMetrics) (g : GitStats)
    (d : List String) (a : Bool) (s : String) :
    (score m g d a s).total
      = min (min ((m.cyclomatic_complexity : Rat) / 20) 1 * 100 * (35/100)
          + min ((m.nloc : Rat) / 100) 1 * 100 * (15/100)
          + min ((m.max_nesting_depth : Rat) / 5) 1 * 100 * (15/100)
          + min ((m.parameter_count : Rat) / 7) 1 * 100 * (10/100)
          + min ((g.commit_count_30d : Rat) / 5) 1 * 100 * (15/100)
          + max 0 (((30 : Rat) - (g.days_since_modified : Rat)) / 30) * 100
              * (10/100)
          + calculate_pattern_bonus d a s) 100 := rfl

/-- C8: for all non-negative metric inputs the total interest score lies in
[0, 100], and the six weighted sub-scores alone sum to at most 100 before
the pattern bonus. -/
theorem C8_score_bounds (metrics : ComplexityMetrics) (git_stats : GitStats)
    (decorators : List String) (is_async : Bool) (source : String)
    (h1 : 0 ≤ metrics.cyclomatic_complexity) (h2 : 0 ≤ metrics.nloc)
    (h3 : 0 ≤ metrics.max_nesting_depth) (h4 : 0 ≤ metrics.parameter_count)
    (h5 : 0 ≤ git_stats.commit_count_30d)
    (h6 : 0 ≤ git_stats.days_since_modified) :
    0 ≤ (score metrics git_stats decorators is_async source).total ∧
    (score metrics git_stats decorators is_async source).total ≤ 100 ∧
    (score metrics git_stats decorators is_async source).complexity_score
      + (score metrics git_stats decorators is_async source).length_score
      + (score metrics git_stats decorators is_async source).nesting_score
      + (score metrics git_stats decorators is_async source).parameter_score
      + (score metrics git_stats decorators is_async source).churn_score
      + (score metrics git_stats decorators is_async source).novelty_score
      ≤ 100 := by
  have hc1 : (0 : Rat) ≤ (metrics.cyclomatic_complexity : Rat) := by
    exact_mod_cast h1
  have hc2 : (0 : Rat) ≤ (metrics.nloc : Rat) := by exact_mod_cast h2
  have hc3 : (0 : Rat) ≤ (metrics.max_nesting_depth : Rat) := by
    exact_mod_cast h3
  have hc4 : (0 : Rat) ≤ (metrics.parameter_count : Rat) := by
    exact_mod_cast h4
  have hc5 : (0 : Rat) ≤ (git_stats.commit_count_30d : Rat) := by
    exact_mod_cast h5
  have hc6 : (0 : Rat) ≤ (git_stats.days_since_modified : Rat) := by
    exact_mod_cast h6
  have b1 := clampScore_nonneg hc1 (by norm_num : (0:Rat) < 20)
  have b2 := clampScore_nonneg hc2 (by norm_num : (0:Rat) < 100)
  have b3 := clampScore_nonneg hc3 (by norm_num : (0:Rat) < 5)
  have b4 := clampScore_nonneg hc4 (by norm_num : (0:Rat) < 7)
  have b5 := clampScore_nonneg hc5 (by norm_num : (0:Rat) < 5)
  have u1 := clampScore_le (x := (metrics.cyclomatic_complexity : Rat)) (c := 20)
  have u2 := clampScore_le (x := (metrics.nloc : Rat)) (c := 100)
  have u3 := clampScore_le (x := (metrics.max_nesting_depth : Rat)) (c := 5)
  have u4 := clampScore_le (x := (metrics.parameter_count : Rat)) (c := 7)
  have u5 := clampScore_le (x := (git_stats.commit_count_30d : Rat)) (c := 5)
  have b6 : (0 : Rat) ≤
      max 0 (((30 : Rat) - (git_stats.days_since_modified : Rat)) / 30) * 100 := by
    nlinarith [le_max_left (0 : Rat)
      (((30 : Rat) - (git_stats.days_since_modified : Rat)) / 30)]
  have u6 : max 0 (((30 : Rat) - (git_stats.days_since_modified : Rat)) / 30) * 100
      ≤ 100 := by
    have hone : ((30 : Rat) - (git_stats.days_since_modified : Rat)) / 30 ≤ 1 := by
      rw [div_le_one (by norm_num : (0:Rat) < 30)]
      linarith
    have : max 0 (((30 : Rat) - (git_stats.days_since_modified : Rat)) / 30) ≤ 1 :=
      max_le (by norm_num) hone
    nlinarith
  have bp := calculate_pattern_bonus_nonneg decorators is_async source
  rw [score_total_eq, score_complexity_eq, score_length_eq, score_nesting_eq,
    score_parameter_eq, score_churn_eq, score_novelty_eq]
  refine ⟨?_, ?_, ?_⟩
  · exact le_min (by linarith) (by norm_num)
  · exact min_le_right _ _
  · linarith

/-- Concrete metrics used by the C8 witness (the S1 scenario numbers from
the spec: cyclomatic 8, 30 lines, nesting 3, 2 parameters). -/
def cexMetrics : ComplexityMetrics :=
  { name := "compute", cyclomatic_complexity := 8, nloc := 30,
    token_count := 0, parameter_count := 2, start_line := 1, end_line := 30,
    max_nesting_depth := 3 }

/-- Concrete git stats used by the C8 witness (modified 5 days ago). -/
def cexGitStats : GitStats :=
  { commit_count_30d := 1, days_since_modified := 5 }

/-- Witness instantiating C8_score_bounds. -/
theorem C8_witness :
    0 ≤ (score cexMetrics cexGitStats ["property"] true "yield").total ∧
    (score cexMetrics cexGitStats ["property"] true "yield").total ≤ 100 ∧
    (score cexMetrics cexGitStats ["property"] true "yield").complexity_score
      + (score cexMetrics cexGitStats ["property"] true "yield").length_score
      + (score cexMetrics cexGitStats ["property"] true "yield").nesting_score
      + (score cexMetrics cexGitStats ["property"] true "yield").parameter_score
      + (score cexMetrics cexGitStats ["property"] true "yield").churn_score
      + (score cexMetrics cexGitStats ["property"] true "yield").novelty_score
      ≤ 100 :=
  C8_score_bounds cexMetrics cexGitStats ["property"] true "yield"
    (by decide) (by decide) (by decide) (by decide) (by decide) (by decide)

/-! C9: function skip policy. -/

/-- The default analyzer settings of config.py (min_lines 15,
max_lines 150). -/
def cexSettings : AnalyzerSettings :=
  { min_complexity := 3, max_lines := 150, min_lines := 15 }

/-- C9 counterexample: a single-leading-underscore function that survives
the 30% gate (draw 0 <= 0.3) is emitted even though its line count 1 is
far below min_lines = 15, because that branch returns before the
line-count check. -/
theorem C9_counterexample :
    should_skip_function (some cexSettings)
        0 { name := "_f", start_line := 1, end_line := 1, source := "s" }
      = false ∧
    ¬ (cexSettings.min_lines ≤ (1 : Int) - 1 + 1) := by
  constructor
  · rw [should_skip_function,
      if_pos (by decide : singleUnderscoreName "_f" = true)]
    simp only [decide_eq_false_iff_not, not_lt]
    norm_num
  · decide

/-- C9 (amended): every function the finder emits has a name outside the
skip set; functions NOT in the single-underscore branch additionally
satisfy the configured [min_lines, max_lines] bounds; and a
single-underscore function survives exactly when the uniform draw is at
most 0.3 (probability 30%), bypassing the line-count check. -/
theorem C9_skip_policy (settings : Option AnalyzerSettings) (r : Rat)
    (func : ParsedFunction) :
    (should_skip_function settings r func = false →
      func.name ∉ skipNames ∧
      (singleUnderscoreName func.name = false →
        ∀ st, settings = some st →
          st.min_lines ≤ func.end_line - func.start_line + 1 ∧
          func.end_line - func.start_line + 1 ≤ st.max_lines)) ∧
    (singleUnderscoreName func.name = true →
      (should_skip_function settings r func = false ↔ r ≤ 3/10)) := by
  constructor
  · intro hsk
    by_cases hsu : singleUnderscoreName func.name = true
    · constructor
      · intro hmem
        simp only [skipNames, List.mem_cons, List.not_mem_nil, or_false] at hmem
        rcases hmem with h | h | h | h | h | h <;>
          (rw [h] at hsu; exact absurd hsu (by decide))
      · intro hfalse
        rw [hfalse] at hsu
        exact absurd hsu Bool.false_ne_true
    · rw [Bool.not_eq_true] at hsu
      rw [should_skip_function, if_neg (by simp [hsu])] at hsk
      by_cases hmem : func.name ∈ skipNames
      · rw [if_pos hmem] at hsk
        exact absurd hsk (by simp)
      · refine ⟨hmem, ?_⟩
        intro _ st hst
        rw [if_neg hmem, hst] at hsk
        dsimp only at hsk
        split_ifs at hsk with hlo hhi
        all_goals first
          | exact Bool.noConfusion hsk
          | omega
  · intro hsu
    rw [should_skip_function, if_pos (by simp [hsu])]
    simp [not_lt]

/-- A single-leading-underscore helper function used by the C9 witness. -/
def cexPrivateFunc : ParsedFunction :=
  { name := "_helper", start_line := 10, end_line := 40, source := "s" }

/-- Witness instantiating C9_skip_policy on a surviving single-underscore
function. -/
theorem C9_witness :
    (should_skip_function (some cexSettings) (1/5) cexPrivateFunc = false →
      cexPrivateFunc.name ∉ skipNames ∧
      (singleUnderscoreName cexPrivateFunc.name = false →
        ∀ st, (some cexSettings : Option AnalyzerSettings) = some st →
          st.min_lines ≤ cexPrivateFunc.end_line - cexPrivateFunc.start_line + 1 ∧
          cexPrivateFunc.end_line - cexPrivateFunc.start_line + 1
            ≤ st.max_lines)) ∧
    (singleUnderscoreName cexPrivateFunc.name = true →
      (should_skip_function (some cexSettings) (1/5) cexPrivateFunc = false ↔
        (1:Rat)/5 ≤ 3/10)) :=
  C9_skip_policy (some cexSettings) (1/5) cexPrivateFunc

/-! C2: invariants of the generated daily schedule. -/

lemma pickIndex_pos (ws : List Rat) (v : Rat) (h0 : 0 ≤ v)
    (hs : v < ws.sum) :
    ∃ w, ws[pickIndex ws v]? = some w ∧ 0 < w := by
  induction ws generalizing v with
  | nil =>
    simp only [List.sum_nil] at hs
    linarith
  | cons w rest ih =>
    by_cases hv : v < w
    · refine ⟨w, ?_, lt_of_le_of_lt h0 hv⟩
      simp [pickIndex, if_pos hv]
    · push_neg at hv
      have h0' : 0 ≤ v - w := by linarith
      have hs' : v - w < rest.sum := by
        rw [List.sum_cons] at hs
        linarith
      obtain ⟨w', hw', hpos⟩ := ih (v - w) h0' hs'
      refine ⟨w', ?_, hpos⟩
      simp only [pickIndex, if_neg (not_lt.mpr hv)]
      simpa using hw'

lemma chooseHour_spec (ws : List Rat) (x : Rat) (hx0 : 0 ≤ x) (hx1 : x < 1)
    (hsum : 0 < ws.sum) :
    chooseHour ws x < ws.length ∧
    ∃ w, ws[chooseHour ws x]? = some w ∧ 0 < w := by
  have hv0 : 0 ≤ x * ws.sum := mul_nonneg hx0 hsum.le
  have hv1 : x * ws.sum < ws.sum := by nlinarith
  obtain ⟨w, hw, hpos⟩ := pickIndex_pos ws (x * ws.sum) hv0 hv1
  have hlt : pickIndex ws (x * ws.sum) < ws.length :=
    (List.getElem?_eq_some.mp hw).1
  have hmin : chooseHour ws x = pickIndex ws (x * ws.sum) := by
    unfold chooseHour
    exact Nat.min_eq_left (by omega)
  rw [hmin]
  exact ⟨hlt, w, hw, hpos⟩

lemma applyAvoidHours_pres_zero (avoid : List Nat) (ws : List Rat) (i : Nat)
    (h : ws[i]? = some 0) : (applyAvoidHours ws avoid)[i]? = some 0 := by
  induction avoid generalizing ws with
  | nil => exact h
  | cons a rest ih =>
    simp only [applyAvoidHours, List.foldl_cons] at *
    apply ih
    by_cases ha : a < 24
    · rw [if_pos ha]
      by_cases hai : a = i
      · subst hai
        exact List.getElem?_set_eq (List.getElem?_eq_some.mp h).1
      · rw [List.getElem?_set_ne hai]
        exact h
    · rw [if_neg ha]
      exact h

lemma applyAvoidHours_avoided (avoid : List Nat) (ws : List Rat) (i : Nat)
    (hmem : i ∈ avoid) (h24 : i < 24) (hlen : i < ws.length) :
    (applyAvoidHours ws avoid)[i]? = some 0 := by
  induction avoid generalizing ws with
  | nil => simp at hmem
  | cons a rest ih =>
    simp only [applyAvoidHours, List.foldl_cons]
    rcases List.mem_cons.mp hmem with rfl | hmem'
    · rw [if_pos h24]
      exact applyAvoidHours_pres_zero rest _ i (List.getElem?_set_eq hlen)
    · by_cases ha : a < 24
      · rw [if_pos ha]
        exact ih _ hmem' (by rw [List.length_set]; exact hlen)
      · rw [if_neg ha]
        exact ih _ hmem' hlen

lemma applyPreferHours_length (prefer : List Nat) (ws : List Rat) :
    (applyPreferHours ws prefer).length = ws.length := by
  induction prefer generalizing ws with
  | nil => rfl
  | cons a rest ih =>
    simp only [applyPreferHours, List.foldl_cons] at *
    rw [ih]
    by_cases ha : a < 24
    · rw [if_pos ha, List.length_set]
    · rw [if_neg ha]

lemma applyAvoidHours_length (avoid : List Nat) (ws : List Rat) :
    (applyAvoidHours ws avoid).length = ws.length := by
  induction avoid generalizing ws with
  | nil => rfl
  | cons a rest ih =>
    simp only [applyAvoidHours, List.foldl_cons] at *
    rw [ih]
    by_cases ha : a < 24
    · rw [if_pos ha, List.length_set]
    · rw [if_neg ha]

lemma build_hour_weights_length (prefer avoid : List Nat) :
    (build_hour_weights prefer avoid).length = 24 := by
  unfold build_hour_weights
  rw [applyAvoidHours_length, applyPreferHours_length]
  rfl

lemma build_hour_weights_avoided (prefer avoid : List Nat) (i : Nat)
    (hmem : i ∈ avoid) (h24 : i < 24) :
    (build_hour_weights prefer avoid)[i]? = some 0 := by
  unfold build_hour_weights
  apply applyAvoidHours_avoided avoid _ i hmem h24
  rw [applyPreferHours_length]
  exact h24.trans_le (by norm_num [HOUR_WEIGHTS_BASE])

lemma generateTimesLoop_inv (ws : List Rat) (gap count : Nat)
    (stream : Nat → ScheduleDraw) (avoid : List Nat)
    (hlenws : ws.length = 24)
    (hzero : ∀ i ∈ avoid, i < 24 → ws[i]? = some 0)
    (hsum : 0 < ws.sum)
    (hstream : ∀ a, 0 ≤ (stream a).hour_draw ∧ (stream a).hour_draw < 1) :
    ∀ (fuel attempt : Nat) (times : List Nat),
      times.length ≤ count →
      (∀ t ∈ times, t / 3600 ∉ avoid) →
      (∀ a ∈ times, ∀ b ∈ times, a ≠ b → gap * 60 ≤ Nat.dist a b) →
      (generateTimesLoop ws gap count stream fuel attempt times).length ≤ count ∧
      (∀ t ∈ generateTimesLoop ws gap count stream fuel attempt times,
        t / 3600 ∉ avoid) ∧
      (∀ a ∈ generateTimesLoop ws gap count stream fuel attempt times,
        ∀ b ∈ generateTimesLoop ws gap count stream fuel attempt times,
        a ≠ b → gap * 60 ≤ Nat.dist a b) := by
  intro fuel
  induction fuel with
  | zero =>
    intro attempt times hlen hhour hgap
    exact ⟨hlen, hhour, hgap⟩
  | succ fuel ih =>
    intro attempt times hlen hhour hgap
    by_cases hc : times.length < count
    · simp only [generateTimesLoop, if_pos hc]
      by_cases hv : is_valid_time gap
          (chooseHour ws (stream attempt).hour_draw * 3600
            + (stream attempt).minute_draw % 60 * 60
            + (stream attempt).second_draw % 60) times = true
      · rw [if_pos hv]
        obtain ⟨hlt, w, hw, hwpos⟩ :=
          chooseHour_spec ws (stream attempt).hour_draw
            (hstream attempt).1 (hstream attempt).2 hsum
        have hcanddiv :
            (chooseHour ws (stream attempt).hour_draw * 3600
              + (stream attempt).minute_draw % 60 * 60
              + (stream attempt).second_draw % 60) / 3600
            = chooseHour ws (stream attempt).hour_draw := by
          have h1 : (stream attempt).minute_draw % 60 < 60 :=
            Nat.mod_lt _ (by norm_num)
          have h2 : (stream attempt).second_draw % 60 < 60 :=
            Nat.mod_lt _ (by norm_num)
          omega
        have hcandhour :
            (chooseHour ws (stream attempt).hour_draw * 3600
              + (stream attempt).minute_draw % 60 * 60
              + (stream attempt).second_draw % 60) / 3600 ∉ avoid := by
          rw [hcanddiv]
          intro hmem
          have h24 : chooseHour ws (stream attempt).hour_draw < 24 := by
            rw [hlenws] at hlt
            exact hlt
          have hz := hzero _ hmem h24
          rw [hw] at hz
          have : w = 0 := Option.some.inj hz
          rw [this] at hwpos
          exact lt_irrefl 0 hwpos
        have hvalid : ∀ t ∈ times,
            gap * 60 ≤ Nat.dist
              (chooseHour ws (stream attempt).hour_draw * 3600
                + (stream attempt).minute_draw % 60 * 60
                + (stream attempt).second_draw % 60) t := by
          intro t ht
          have := List.all_eq_true.mp hv t ht
          exact of_decide_eq_true this
        apply ih
        · simp only [List.length_append, List.length_singleton]
          omega
        · intro t ht
          rcases List.mem_append.mp ht with h | h
          · exact hhour t h
          · rw [List.mem_singleton.mp h]
            exact hcandhour
        · intro a ha b hb hne
          rcases List.mem_append.mp ha with ha' | ha' <;>
            rcases List.mem_append.mp hb with hb' | hb'
          · exact hgap a ha' b hb' hne
          · rw [List.mem_singleton.mp hb']
            rw [Nat.dist_comm]
            exact hvalid a ha'
          · rw [List.mem_singleton.mp ha']
            exact hvalid b hb'
          · rw [List.mem_singleton.mp ha', List.mem_singleton.mp hb'] at hne
            exact absurd rfl hne
      · rw [if_neg hv]
        exact ih _ _ hlen hhour hgap
    · simp only [generateTimesLoop, if_neg hc]
      exact ⟨hlen, hhour, hgap⟩

lemma daily_commit_count_toNat_le (is_weekend : Bool) (minC maxC : Nat)
    (wf : Rat) (count_draw : Nat) (hminmax : minC ≤ maxC) (hwf0 : 0 ≤ wf)
    (hwf1 : wf ≤ 1) :
    (generate_daily_commit_count is_weekend minC maxC wf count_draw).toNat
      ≤ max maxC 3 := by
  have hn : minC + count_draw % (maxC - minC + 1) ≤ maxC := by
    have := Nat.mod_lt count_draw (y := maxC - minC + 1) (by omega)
    omega
  cases is_weekend with
  | false =>
    simp only [generate_daily_commit_count, Bool.false_eq_true, if_false]
    calc ((minC + count_draw % (maxC - minC + 1) : Nat) : Int).toNat
        = minC + count_draw % (maxC - minC + 1) := Int.toNat_natCast _
      _ ≤ maxC := hn
      _ ≤ max maxC 3 := le_max_left _ _
  | true =>
    simp only [generate_daily_commit_count, if_true]
    rw [pyInt, if_pos (mul_nonneg (by positivity) hwf0)]
    have hfl : ⌊((minC + count_draw % (maxC - minC + 1) : Nat) : Rat) * wf⌋
        ≤ ((minC + count_draw % (maxC - minC + 1) : Nat) : Int) := by
      have hcast : (0 : Rat)
          ≤ ((minC + count_draw % (maxC - minC + 1) : Nat) : Rat) := by
        positivity
      have hle : ((minC + count_draw % (maxC - minC + 1) : Nat) : Rat) * wf
          ≤ ((minC + count_draw % (maxC - minC + 1) : Nat) : Rat) := by
        nlinarith
      calc ⌊((minC + count_draw % (maxC - minC + 1) : Nat) : Rat) * wf⌋
          ≤ ⌊((minC + count_draw % (maxC - minC + 1) : Nat) : Rat)⌋ :=
            Int.floor_le_floor hle
        _ = ((minC + count_draw % (maxC - minC + 1) : Nat) : Int) :=
            Int.floor_natCast _
    have hmax : max ⌊((minC + count_draw % (maxC - minC + 1) : Nat) : Rat) * wf⌋
        (3 : Int) ≤ ((max maxC 3 : Nat) : Int) := by
      apply max_le
      · have h1 : ((maxC : Nat) : Int) ≤ ((max maxC 3 : Nat) : Int) := by
          exact_mod_cast le_max_left maxC 3
        have h2 : ((minC + count_draw % (maxC - minC + 1) : Nat) : Int)
            ≤ ((maxC : Nat) : Int) := by exact_mod_cast hn
        linarith
      · have h3 : (3 : Int) ≤ ((max maxC 3 : Nat) : Int) := by
          exact_mod_cast le_max_right maxC 3
        linarith
    calc (max ⌊((minC + count_draw % (maxC - minC + 1) : Nat) : Rat) * wf⌋
          (3 : Int)).toNat
        ≤ ((max maxC 3 : Nat) : Int).toNat := Int.toNat_le_toNat hmax
      _ = max maxC 3 := Int.toNat_natCast _

/-- C2 (amended): for any configuration with weekend_reduction in [0, 1]
and some positive hour weight left, and for every RNG stream (hour draws
uniform in [0, 1)), the generated daily schedule is sorted ascending, every
timestamp falls outside avoid_hours, every pair of distinct timestamps is
at least min_gap_minutes apart, and its length is at most
max(max_commits, 3).  The claimed LOWER bound on the length does not hold:
generation gives up after 10 * count attempts, so the schedule may be
shorter than min_commits (see the counterexample). -/
theorem C2_schedule_invariants (is_weekend : Bool) (minC maxC : Nat)
    (wf : Rat) (prefer avoid : List Nat) (gap count_draw : Nat)
    (stream : Nat → ScheduleDraw)
    (hminmax : minC ≤ maxC) (hwf0 : 0 ≤ wf) (hwf1 : wf ≤ 1)
    (hsum : 0 < (build_hour_weights prefer avoid).sum)
    (hstream : ∀ a, 0 ≤ (stream a).hour_draw ∧ (stream a).hour_draw < 1) :
    (generate_daily_schedule is_weekend minC maxC wf prefer avoid gap
      count_draw stream).Sorted (· ≤ ·) ∧
    (∀ t ∈ generate_daily_schedule is_weekend minC maxC wf prefer avoid gap
      count_draw stream, t / 3600 ∉ avoid) ∧
    (∀ a ∈ generate_daily_schedule is_weekend minC maxC wf prefer avoid gap
        count_draw stream,
      ∀ b ∈ generate_daily_schedule is_weekend minC maxC wf prefer avoid gap
        count_draw stream,
      a ≠ b → gap * 60 ≤ Nat.dist a b) ∧
    (generate_daily_schedule is_weekend minC maxC wf prefer avoid gap
      count_draw stream).length ≤ max maxC 3 := by
  obtain ⟨hL1, hL2, hL3⟩ :=
    generateTimesLoop_inv (build_hour_weights prefer avoid) gap
      ((generate_daily_commit_count is_weekend minC maxC wf
        count_draw).toNat) stream avoid
      (build_hour_weights_length prefer avoid)
      (fun i hi h24 => build_hour_weights_avoided prefer avoid i hi h24)
      hsum hstream
      ((generate_daily_commit_count is_weekend minC maxC wf
        count_draw).toNat * 10) 0 []
      (by simp) (by simp) (by simp)
  have hperm := List.perm_insertionSort (· ≤ ·)
    (generateTimesLoop (build_hour_weights prefer avoid) gap
      ((generate_daily_commit_count is_weekend minC maxC wf
        count_draw).toNat) stream
      ((generate_daily_commit_count is_weekend minC maxC wf
        count_draw).toNat * 10) 0 [])
  simp only [generate_daily_schedule, generate_times]
  refine ⟨List.sorted_insertionSort _ _, ?_, ?_, ?_⟩
  · intro t ht
    exact hL2 t (hperm.mem_iff.mp ht)
  · intro a ha b hb hne
    exact hL3 a (hperm.mem_iff.mp ha) b (hperm.mem_iff.mp hb) hne
  · rw [hperm.length_eq]
    exact le_trans hL1
      (daily_commit_count_toNat_le is_weekend minC maxC wf count_draw
        hminmax hwf0 hwf1)

lemma cexLoop_fixed (ws : List Rat) (cand : Nat)
    (hcand : cand = chooseHour ws (1/5) * 3600 + 0 % 60 * 60 + 0 % 60) :
    ∀ fuel attempt,
      generateTimesLoop ws 1 2 (fun _ => ⟨1/5, 0, 0⟩) fuel attempt [cand]
        = [cand] := by
  intro fuel
  induction fuel with
  | zero => intro attempt; rfl
  | succ fuel ih =>
    intro attempt
    simp only [generateTimesLoop]
    rw [if_pos (by simp : ([cand] : List Nat).length < 2)]
    rw [← hcand]
    have hval : is_valid_time 1 cand [cand] = false := by
      simp [is_valid_time, Nat.dist_self]
    rw [hval]
    simp only [Bool.false_eq_true, if_false]
    exact ih (attempt + 1)

lemma cexLoop_from_empty (ws : List Rat) (cand : Nat)
    (hcand : cand = chooseHour ws (1/5) * 3600 + 0 % 60 * 60 + 0 % 60) :
    ∀ fuel attempt, 1 ≤ fuel →
      generateTimesLoop ws 1 2 (fun _ => ⟨1/5, 0, 0⟩) fuel attempt []
        = [cand] := by
  intro fuel
  cases fuel with
  | zero => intro attempt h; omega
  | succ fuel =>
    intro attempt _
    simp only [generateTimesLoop]
    rw [if_pos (by simp : ([] : List Nat).length < 2)]
    rw [← hcand]
    have hval : is_valid_time 1 cand [] = true := rfl
    rw [hval]
    simp only [if_true, List.nil_append]
    exact cexLoop_fixed ws cand hcand fuel (attempt + 1)

/-- C2 counterexample: the configuration min = max = 2, min_gap = 1 minute,
no avoid hours satisfies the claim's feasibility premise
min_gap * max <= 24*60 - 0, yet the RNG stream that repeats the same draw
forever produces a schedule of length 1 < min = 2: after the first accepted
timestamp every further attempt collides and the loop gives up after
10 * count attempts, so the claimed lower bound on the schedule length
fails. -/
theorem C2_counterexample :
    1 * 2 ≤ 24 * 60 - 0 ∧
    (generate_daily_schedule false 2 2 (7/10) [] [] 1 0
      (fun _ => ⟨1/5, 0, 0⟩)).length < 2 := by
  refine ⟨by norm_num, ?_⟩
  have hcount : generate_daily_commit_count false 2 2 (7/10) 0 = 2 := by
    simp [generate_daily_commit_count]
  simp only [generate_daily_schedule, generate_times, hcount]
  rw [show (2 : Int).toNat = 2 from rfl]
  rw [cexLoop_from_empty (build_hour_weights [] [])
    (chooseHour (build_hour_weights [] []) (1/5) * 3600 + 0 % 60 * 60
      + 0 % 60) rfl (2 * 10) 0 (by norm_num)]
  rw [(List.perm_insertionSort (· ≤ ·) _).length_eq]
  simp

/-- Witness instantiating C2_schedule_invariants. -/
theorem C2_witness :
    (generate_daily_schedule true 1 3 1 [] [3] 1 0
      (fun _ => ⟨1/5, 0, 0⟩)).Sorted (· ≤ ·) ∧
    (∀ t ∈ generate_daily_schedule true 1 3 1 [] [3] 1 0
      (fun _ => ⟨1/5, 0, 0⟩), t / 3600 ∉ [3]) ∧
    (∀ a ∈ generate_daily_schedule true 1 3 1 [] [3] 1 0
        (fun _ => ⟨1/5, 0, 0⟩),
      ∀ b ∈ generate_daily_schedule true 1 3 1 [] [3] 1 0
        (fun _ => ⟨1/5, 0, 0⟩),
      a ≠ b → 1 * 60 ≤ Nat.dist a b) ∧
    (generate_daily_schedule true 1 3 1 [] [3] 1 0
      (fun _ => ⟨1/5, 0, 0⟩)).length ≤ max 3 3 :=
  C2_schedule_invariants true 1 3 1 [] [3] 1 0 (fun _ => ⟨1/5, 0, 0⟩)
    (by norm_num) (by norm_num) (by norm_num)
    (by norm_num [build_hour_weights, applyPreferHours, applyAvoidHours,
      HOUR_WEIGHTS_BASE])
    (fun a => ⟨by norm_num, by norm_num⟩)

end CodeWorm
